import Mathlib

/-!
Shallow embedding of the iced-cashu GUI application (src/main.rs, src/config.rs).

The application is an iced GUI: a state struct `IcedCashu`, a message enum
`Message`, an `update` function mutating the state and returning an iced
`Task`, and a `view` function rendering the state.  We embed the state as a
Lean structure, `update` as a pure function `IcedCashu → Message → Option
(IcedCashu × Effect)` where `Option.none` models a panic (an `unwrap()` of a
`None`/`Err` inside the handler) and `Effect` records which async operation
the returned `Task` performs, and `view` as `render : IcedCashu → Option
Screen` where `Option.none` again models a panic.

External-library values are modelled opaquely: a wallet handle is a `Nat`,
`qr_code::Data` is the string it encodes, and the fallible external
constructor `qr_code::Data::new` is a parameter `qrNew` of `update`.
-/

namespace IcedCashuModel

/-- Opaque handle to the external cdk wallet object (`Arc<Wallet>`). -/
def Wallet : Type := Nat

instance : DecidableEq Wallet := fun a b => Nat.decEq a b

instance : OfNat Wallet 0 := ⟨(0 : Nat)⟩

/-- Opaque `iced::widget::qr_code::Data`, modelled as the string it encodes. -/
def QrData : Type := String

instance : DecidableEq QrData := fun a b => String.decEq a b

/-- `const DEFAULT_MINT: &str` from src/main.rs. -/
def DEFAULT_MINT : String := "https://mint.thesimplekid.dev"

/-- The `View` enum of src/main.rs; `Main` is `#[default]`. -/
inductive View
  | Main
  | Receive
  | Pay
  | Invoice
  | Token
deriving DecidableEq

/-- The `Message` enum of src/main.rs. -/
inductive Message
  | DataChanged (s : String)
  | ReceiveDataChanged (s : String)
  | SendDataChanged (s : String)
  | Pay
  | PayBolt11Change (s : String)
  | PayInvoice
  | NewWallet
  | WalletCreated (w : Wallet)
  | MintQuote (rq : String × String)
  | ReceiveEcash
  | Receive
  | Minted (n : Nat)
  | CheckBalance (n : Nat)
  | Balance (n : Nat)
  | CreateInvoice
  | CreateToken
  | TokenCreated (t : String)
  | CopyInvoice
  | CopyToken
  | Home
deriving DecidableEq

/-- The `IcedCashu` application-state struct of src/main.rs. -/
structure IcedCashu where
  wallet : Option Wallet
  data : String
  pay_invoice : String
  invoice : String
  token : String
  qr_code : Option QrData
  view : View
  balance : Nat
  receive_amount : String
  send_amount : String
  active_mint : String
deriving DecidableEq

/-- `#[derive(Default)]` for `IcedCashu`: empty strings, no wallet, no QR
code, `View::Main`, balance 0, default (empty) mint url. -/
def IcedCashu.default : IcedCashu :=
  { wallet := Option.none
    data := ""
    pay_invoice := ""
    invoice := ""
    token := ""
    qr_code := Option.none
    view := View.Main
    balance := 0
    receive_amount := ""
    send_amount := ""
    active_mint := "" }

/-- The async operation carried by the `Task` a handler returns.  Each of the
async functions of src/main.rs has one constructor holding its arguments
other than the wallet handle; `task_none` is `Task::none()`.  The message
constructor each task completes with is fixed at the dispatch site and is
recorded in `completes` below. -/
inductive Effect
  | task_none
  | new_wallet
  | check_balance
  | mint_quote (mint_url : String) (amount : Nat)
  | mint (mint_url : String) (quote_id : String)
  | receive (token : String)
  | create_token (mint_url : String) (amount : Nat)
  | pay_invoice (mint_url : String) (bolt11 : String)
deriving DecidableEq

/-- `<String as FromStr>::from_str`: the `data.parse()` calls in the
`ReceiveDataChanged` and `SendDataChanged` handlers assign the parse result
to a `String` field, so the inferred parse target type is `String`, whose
`FromStr` impl is infallible: every input string parses to itself. -/
def string_from_str (s : String) : Option String := some s

/-- One step of `u64::from_str`: accumulate a decimal digit, failing on a
non-digit character or on overflow past `2 ^ 64 - 1`. -/
def u64_from_str_digits : List Char → Nat → Option Nat
  | [], acc => some acc
  | c :: cs, acc =>
      if '0' ≤ c ∧ c ≤ '9' then
        let v := acc * 10 + (c.toNat - '0'.toNat)
        if v < 2 ^ 64 then u64_from_str_digits cs v else Option.none
      else Option.none

/-- `u64::from_str` (the `.parse::<u64>()` in the `CreateInvoice` and
`CreateToken` handlers): an optional leading `+`, then at least one decimal
digit, value below `2 ^ 64`; a leading `-` or any other non-digit fails. -/
def u64_from_str (s : String) : Option Nat :=
  let cs := s.data
  let cs := match cs with
    | '+' :: rest => rest
    | other => other
  match cs with
  | [] => Option.none
  | _ => u64_from_str_digits cs 0

/-- `IcedCashu::update` of src/main.rs.  `qrNew` embeds the external
fallible constructor `qr_code::Data::new(..).ok()`.  The result is
`Option.none` exactly when the handler panics: every `self.wallet.clone()
.unwrap()` on a `None` wallet, and the `.parse().unwrap()` on an amount
string that is not a valid `u64`.  Field assignments are performed in the
source's statement order; in particular the `Receive` handler clears
`self.data` before the `Task` argument `self.data.clone()` is read. -/
def update (qrNew : String → Option QrData) (s : IcedCashu) (m : Message) :
    Option (IcedCashu × Effect) :=
  match m with
  | Message.DataChanged data => some ({ s with data := data }, Effect.task_none)
  | Message.ReceiveDataChanged data =>
      match string_from_str data with
      | some data => some ({ s with receive_amount := data }, Effect.task_none)
      | Option.none => some (s, Effect.task_none)
  | Message.SendDataChanged data =>
      match string_from_str data with
      | some data => some ({ s with send_amount := data }, Effect.task_none)
      | Option.none => some (s, Effect.task_none)
  | Message.NewWallet =>
      some ({ s with active_mint := DEFAULT_MINT }, Effect.new_wallet)
  | Message.WalletCreated w =>
      let s := { s with wallet := some w }
      match s.wallet with
      | some _ => some (s, Effect.check_balance)
      | Option.none => Option.none
  | Message.MintQuote rq =>
      let s := { s with qr_code := qrNew rq.1 }
      let s := { s with invoice := rq.1 }
      let s := { s with view := View.Invoice }
      match s.wallet with
      | some _ => some (s, Effect.mint s.active_mint rq.2)
      | Option.none => Option.none
  | Message.Minted _ =>
      let s := { s with view := View.Main }
      match s.wallet with
      | some _ => some (s, Effect.check_balance)
      | Option.none => Option.none
  | Message.ReceiveEcash =>
      some ({ s with view := View.Receive }, Effect.task_none)
  | Message.Receive =>
      match s.wallet with
      | some _ =>
          let s := { s with view := View.Main }
          let s := { s with data := "" }
          some (s, Effect.receive s.data)
      | Option.none => Option.none
  | Message.CreateInvoice =>
      match s.wallet with
      | some _ =>
          match u64_from_str s.receive_amount with
          | some amount => some (s, Effect.mint_quote s.active_mint amount)
          | Option.none => Option.none
      | Option.none => Option.none
  | Message.CheckBalance _ =>
      match s.wallet with
      | some _ => some (s, Effect.check_balance)
      | Option.none => Option.none
  | Message.Balance amount =>
      some ({ s with balance := amount }, Effect.task_none)
  | Message.CopyInvoice => some (s, Effect.task_none)
  | Message.CopyToken => some (s, Effect.task_none)
  | Message.PayBolt11Change data =>
      some ({ s with pay_invoice := data }, Effect.task_none)
  | Message.PayInvoice =>
      match s.wallet with
      | some _ =>
          let s := { s with view := View.Main }
          some (s, Effect.pay_invoice s.active_mint s.pay_invoice)
      | Option.none => Option.none
  | Message.Pay => some ({ s with view := View.Pay }, Effect.task_none)
  | Message.CreateToken =>
      match s.wallet with
      | some _ =>
          match u64_from_str s.send_amount with
          | some amount => some (s, Effect.create_token s.active_mint amount)
          | Option.none => Option.none
      | Option.none => Option.none
  | Message.TokenCreated token =>
      some ({ s with token := token, view := View.Token }, Effect.task_none)
  | Message.Home =>
      match s.wallet with
      | some _ =>
          let s := { s with data := "" }
          let s := { s with pay_invoice := "" }
          let s := { s with token := "" }
          let s := { s with qr_code := Option.none }
          let s := { s with receive_amount := "" }
          let s := { s with send_amount := "" }
          let s := { s with view := View.Main }
          some (s, Effect.check_balance)
      | Option.none => Option.none

/-- The screen description produced by `IcedCashu::view`, abstracted to the
screen kind and the state fields it displays. -/
inductive Screen
  | new_wallet_screen
  | main_screen (balance : Nat)
  | receive_screen (data : String) (receive_amount : String)
  | pay_screen (balance : Nat) (pay_invoice : String) (send_amount : String)
  | invoice_screen (qr : QrData)
  | token_screen (token : String)
deriving DecidableEq

/-- `IcedCashu::view` of src/main.rs.  When `self.wallet` is `None` the
initialization screen (a single New Wallet button) is shown regardless of
`self.view`.  On `View::Invoice` the source evaluates
`self.qr_code.as_ref().map(..).unwrap()`, which panics when `qr_code` is
`None`; that panic is modelled as `Option.none`. -/
def render (s : IcedCashu) : Option Screen :=
  match s.wallet with
  | some _ =>
      match s.view with
      | View.Main => some (Screen.main_screen s.balance)
      | View.Receive => some (Screen.receive_screen s.data s.receive_amount)
      | View.Pay => some (Screen.pay_screen s.balance s.pay_invoice s.send_amount)
      | View.Invoice =>
          match s.qr_code with
          | some qr => some (Screen.invoice_screen qr)
          | Option.none => Option.none
      | View.Token => some (Screen.token_screen s.token)
  | Option.none => some Screen.new_wallet_screen

/-! ### Seed store (src/config.rs and the seed logic of `new_wallet`)

The `bip39::Mnemonic` type is external; we model a mnemonic as the string it
prints to, and `Mnemonic::from_str` as a parameter `mnemonic_from_str`.  The
filesystem read `fs::read_to_string(path).ok()` is modelled by its result,
an `Option String` parameter `file`. -/

/-- `get_seed` of src/config.rs: read the seed file (`file` is the `.ok()`
of the read), then `seed.map(|s| Mnemonic::from_str(&s).ok()).flatten()`. -/
def get_seed (file : Option String) (mnemonic_from_str : String → Option String) :
    Option String :=
  (file.map fun s => mnemonic_from_str s).join

/-- What the seed-resolution block of `new_wallet` (src/main.rs) produces:
the seed used for the wallet, and the contents written to `seed.txt` by
`save_seed` when a write happens (`Option.none` when nothing is written). -/
structure SeedOutcome where
  seed : String
  written : Option String
deriving DecidableEq

/-- The `match get_seed() { Some(seed) => seed, None => .. }` block of
`new_wallet` in src/main.rs: when `get_seed` yields a mnemonic it is used
and nothing is written; otherwise a fresh mnemonic (`fresh`, the result of
the external `generate_mnemonic()`) is saved via `save_seed` and used. -/
def new_wallet_seed (file : Option String) (mnemonic_from_str : String → Option String)
    (fresh : String) : SeedOutcome :=
  match get_seed file mnemonic_from_str with
  | some seed => { seed := seed, written := Option.none }
  | Option.none => { seed := fresh, written := some fresh }

/-! ### The mint-await loop (`mint` of src/main.rs)

The async function `mint` runs `while !paid { paid = status_query(); sleep(5
seconds) }` and then calls `wallet.mint(..)`.  We model its execution as the
trace of externally visible events it performs, with the sequence of status
answers given by `status : Nat → Bool` (the result of the k-th
`mint_quote_status` query) and a fuel bound standing in for the unbounded
run time of the loop (`Option.none` means the loop had not exited within
`fuel` iterations). -/

/-- An externally visible event of the `mint` async function. -/
inductive MintEvent
  | query (paid : Bool)
  | sleep (secs : Nat)
  | mint_call
deriving DecidableEq

/-- Event trace of `mint` (src/main.rs) started at query index `k`: each
loop iteration queries `mint_quote_status` and then sleeps 5 seconds; the
loop exits once a query returned `paid = true`, after which `wallet.mint` is
called. -/
def mint_trace (status : Nat → Bool) : Nat → Nat → Option (List MintEvent)
  | 0, _ => Option.none
  | fuel + 1, k =>
      let paid := status k
      if paid then
        some [MintEvent.query true, MintEvent.sleep 5, MintEvent.mint_call]
      else
        (mint_trace status fuel (k + 1)).map
          (fun rest => MintEvent.query false :: MintEvent.sleep 5 :: rest)

/-- `n` unpaid polling rounds: each is a `paid = false` status query
followed by a 5-second sleep. -/
def pollRounds : Nat → List MintEvent
  | 0 => []
  | n + 1 => MintEvent.query false :: MintEvent.sleep 5 :: pollRounds n

/-! ### Reachable configurations

Messages reach `update` from two sources: widgets of the currently rendered
screen (buttons' `on_press`, text inputs' `on_input`), and completions of
previously dispatched `Task::perform` futures.  A configuration pairs the
state with the multiset (as a list) of dispatched, not yet completed
effects. -/

/-- Which messages a rendered screen can emit, read off the widgets built in
`IcedCashu::view` (src/main.rs). -/
def Screen.emits : Screen → Message → Prop
  | Screen.new_wallet_screen, m => m = Message.NewWallet
  | Screen.main_screen _, m => m = Message.ReceiveEcash ∨ m = Message.Pay
  | Screen.receive_screen _ _, m =>
      (∃ t, m = Message.DataChanged t) ∨ m = Message.Receive ∨
      (∃ t, m = Message.ReceiveDataChanged t) ∨ m = Message.CreateInvoice ∨
      m = Message.Home
  | Screen.pay_screen _ _ _, m =>
      (∃ t, m = Message.PayBolt11Change t) ∨ m = Message.PayInvoice ∨
      (∃ t, m = Message.SendDataChanged t) ∨ m = Message.CreateToken ∨
      m = Message.Home
  | Screen.invoice_screen _, m => m = Message.CopyInvoice ∨ m = Message.Home
  | Screen.token_screen _, m => m = Message.CopyToken ∨ m = Message.Home

/-- Which completion message each dispatched async operation delivers, read
off the `Task::perform(op, Message::Ctor)` pairs in `IcedCashu::update`:
the operation's result value is chosen by the environment. -/
def completes : Effect → Message → Prop
  | Effect.task_none, _ => False
  | Effect.new_wallet, m => ∃ w, m = Message.WalletCreated w
  | Effect.check_balance, m => ∃ n, m = Message.Balance n
  | Effect.mint_quote _ _, m => ∃ r q, m = Message.MintQuote (r, q)
  | Effect.mint _ _, m => ∃ n, m = Message.Minted n
  | Effect.receive _, m => ∃ n, m = Message.CheckBalance n
  | Effect.create_token _ _, m => ∃ n, m = Message.TokenCreated n
  | Effect.pay_invoice _ _, m => ∃ n, m = Message.CheckBalance n

/-- Add a dispatched effect to the pending list; `Task::none()` dispatches
nothing. -/
def pushEffect (l : List Effect) (e : Effect) : List Effect :=
  match e with
  | Effect.task_none => l
  | e => l ++ [e]

/-- Application state together with the dispatched, not yet completed async
operations. -/
structure Config where
  state : IcedCashu
  pending : List Effect
deriving DecidableEq

/-- One step of the event loop: either the rendered screen emits a UI
message, or a pending async operation completes and delivers its message.
Steps exist only when the handler does not panic (`update` is `some`). -/
inductive Step (qrNew : String → Option QrData) : Config → Config → Prop
  | ui (c c' : Config) (m : Message) (scr : Screen) (s' : IcedCashu) (e : Effect)
      (hr : render c.state = some scr) (he : scr.emits m)
      (hu : update qrNew c.state m = some (s', e))
      (hc : c' = ⟨s', pushEffect c.pending e⟩) : Step qrNew c c'
  | task (c c' : Config) (e : Effect) (m : Message) (s' : IcedCashu) (e' : Effect)
      (hp : e ∈ c.pending) (hm : completes e m)
      (hu : update qrNew c.state m = some (s', e'))
      (hc : c' = ⟨s', pushEffect (c.pending.erase e) e'⟩) : Step qrNew c c'

/-- Configurations reachable from the freshly started application
(`IcedCashu::default`, nothing dispatched). -/
inductive Reachable (qrNew : String → Option QrData) : Config → Prop
  | init : Reachable qrNew ⟨IcedCashu.default, []⟩
  | step {c c' : Config} : Reachable qrNew c → Step qrNew c c' → Reachable qrNew c'

/-! ### Concrete instances used in counterexamples and witnesses -/

/-- A concrete `qr_code::Data::new` environment that always fails. -/
def qr0 : String → Option QrData := fun _ => Option.none

/-- A concrete `Mnemonic::from_str` environment on which every string fails
to parse. -/
def rejectAll : String → Option String := fun _ => Option.none

/-- Receive screen with a pasted token in the data field. -/
def receiveState : IcedCashu :=
  { IcedCashu.default with wallet := some 0, view := View.Receive, data := "cashuAey" }

/-- A state whose receive-amount field holds the valid value 5. -/
def amountState : IcedCashu :=
  { IcedCashu.default with wallet := some 0, view := View.Receive, receive_amount := "5" }

/-- Pay screen state awaiting a token-creation completion. -/
def tokenState : IcedCashu :=
  { IcedCashu.default with wallet := some 0, view := View.Pay }

/-- Invoice screen with every transient field populated. -/
def invoiceState : IcedCashu :=
  { IcedCashu.default with
    wallet := some 0
    view := View.Invoice
    invoice := "lnbc10n1payreq"
    data := "x"
    pay_invoice := "y"
    token := "z"
    qr_code := some "q"
    receive_amount := "1"
    send_amount := "2" }

/-- Invoice screen for which no QR code is available. -/
def invoiceNoQrState : IcedCashu :=
  { IcedCashu.default with
    wallet := some 0
    view := View.Invoice
    qr_code := Option.none }

/-- The state the Home handler produces: all transient fields cleared, view
Main, everything else untouched. -/
def homeCleared (s : IcedCashu) : IcedCashu :=
  { s with
    data := ""
    pay_invoice := ""
    token := ""
    qr_code := Option.none
    receive_amount := ""
    send_amount := ""
    view := View.Main }

/-! ### Claim theorems -/

/-- Claim C1 (code evaluation at the failing input): on the Receive screen
with pasted token string `cashuAey` in the data field, dispatching the Claim
event (`Message::Receive`) does set the view to Main, but the dispatched
receive operation carries the empty string — the handler clears `self.data`
before reading it — not the pasted token string, contradicting the claim
that `receiveToken` is invoked with the pasted token string. -/
theorem c1_receive_dispatches_empty_token :
    update qr0 receiveState Message.Receive =
      some ({ receiveState with view := View.Main, data := "" }, Effect.receive "") ∧
    Effect.receive "" ≠ Effect.receive receiveState.data := by
  refine ⟨rfl, ?_⟩
  decide

/-- Claim C2 (counterexample): with the receive-amount field holding prior
value `5`, input `abc` — which does not parse as a non-negative integer —
does not leave the field unchanged: the field becomes `abc`, because the
handlers' `data.parse()` has inferred target type `String` and never
fails. -/
theorem c2_counterexample :
    update qr0 amountState (Message.ReceiveDataChanged "abc") =
      some ({ amountState with receive_amount := "abc" }, Effect.task_none) ∧
    ("abc" : String) ≠ amountState.receive_amount := by
  refine ⟨rfl, ?_⟩
  decide

/-- Claim C2 (amended): every string input to an amount text field updates
the field to exactly that string, numeric or not — the `parse()` target type
is `String`, whose parse is infallible — with no other state change and no
task dispatched. -/
theorem c2_amount_field_updates_unconditionally (qrNew : String → Option QrData)
    (s : IcedCashu) (d : String) :
    update qrNew s (Message.ReceiveDataChanged d) =
      some ({ s with receive_amount := d }, Effect.task_none) ∧
    update qrNew s (Message.SendDataChanged d) =
      some ({ s with send_amount := d }, Effect.task_none) :=
  ⟨rfl, rfl⟩

/-- Claim C3 (counterexample): with an existing seed file whose contents do
not parse as a mnemonic, wallet creation does not fail: it silently replaces
the file with a freshly generated mnemonic (the written contents are the
fresh mnemonic, not nothing). -/
theorem c3_counterexample :
    (new_wallet_seed (some "not a mnemonic") rejectAll "fresh words").written =
      some "fresh words" ∧
    (new_wallet_seed (some "not a mnemonic") rejectAll "fresh words").written ≠
      Option.none := by
  refine ⟨rfl, ?_⟩
  decide

/-- Claim C3 (amended): when a seed file exists but its contents do not
parse as a valid mnemonic, `get_seed` returns `None` and `new_wallet`
silently generates a fresh mnemonic, saves it — overwriting the unparsable
file — and uses it; wallet creation does not fail on unparsable seed-file
contents. -/
theorem c3_unparsable_seed_replaced (file fresh : String)
    (mnemonic_from_str : String → Option String)
    (h : mnemonic_from_str file = Option.none) :
    get_seed (some file) mnemonic_from_str = Option.none ∧
    new_wallet_seed (some file) mnemonic_from_str fresh =
      { seed := fresh, written := some fresh } := by
  constructor
  · simp [get_seed, h]
  · simp [new_wallet_seed, get_seed, h]

/-- Witness for C3 at a concrete unparsable file. -/
theorem c3_unparsable_seed_replaced_witness :
    get_seed (some "garbage") rejectAll = Option.none ∧
    new_wallet_seed (some "garbage") rejectAll "fresh" =
      { seed := "fresh", written := some "fresh" } :=
  c3_unparsable_seed_replaced "garbage" "fresh" rejectAll rfl

/-- Claim C5: with a wallet handle present, dispatching Home yields the Main
view with all transient fields (pasted token, pasted invoice, token string,
QR code, amount strings) empty and dispatches a balance refresh; dispatching
Home again from the resulting state yields exactly the same state and
effect, so repeated Home dispatches are idempotent. -/
theorem c5_home_idempotent (qrNew : String → Option QrData) (s : IcedCashu)
    (w : Wallet) (h : s.wallet = some w) :
    ∃ s', update qrNew s Message.Home = some (s', Effect.check_balance) ∧
      s'.view = View.Main ∧ s'.data = "" ∧ s'.pay_invoice = "" ∧ s'.token = "" ∧
      s'.qr_code = Option.none ∧ s'.receive_amount = "" ∧ s'.send_amount = "" ∧
      update qrNew s' Message.Home = update qrNew s Message.Home := by
  refine ⟨homeCleared s, ?_, rfl, rfl, rfl, rfl, rfl, rfl, rfl, ?_⟩ <;>
    simp [update, homeCleared, h]

/-- Witness for C5 at a fully populated Invoice-screen state. -/
theorem c5_home_idempotent_witness :
    ∃ s', update qr0 invoiceState Message.Home = some (s', Effect.check_balance) ∧
      s'.view = View.Main ∧ s'.data = "" ∧ s'.pay_invoice = "" ∧ s'.token = "" ∧
      s'.qr_code = Option.none ∧ s'.receive_amount = "" ∧ s'.send_amount = "" ∧
      update qr0 s' Message.Home = update qr0 invoiceState Message.Home :=
  c5_home_idempotent qr0 invoiceState 0 rfl

/-- Claim C9 (frame property of Home): with a wallet handle present,
dispatching Home clears `data`, `pay_invoice`, `token`, `qr_code`,
`receive_amount` and `send_amount`, but leaves the stored payment-request
`invoice` string unchanged (as well as the wallet handle, balance and active
mint). -/
theorem c9_home_preserves_invoice (qrNew : String → Option QrData)
    (s : IcedCashu) (w : Wallet) (h : s.wallet = some w) :
    ∃ s', update qrNew s Message.Home = some (s', Effect.check_balance) ∧
      s'.invoice = s.invoice ∧ s'.wallet = s.wallet ∧ s'.balance = s.balance ∧
      s'.active_mint = s.active_mint ∧ s'.data = "" ∧ s'.pay_invoice = "" ∧
      s'.token = "" ∧ s'.qr_code = Option.none ∧ s'.receive_amount = "" ∧
      s'.send_amount = "" := by
  refine ⟨homeCleared s, ?_, rfl, rfl, rfl, rfl, rfl, rfl, rfl, rfl, rfl, rfl⟩
  simp [update, homeCleared, h]

/-- Witness for C9 at an Invoice-screen state with a nonempty stored
invoice. -/
theorem c9_home_preserves_invoice_witness :
    ∃ s', update qr0 invoiceState Message.Home = some (s', Effect.check_balance) ∧
      s'.invoice = invoiceState.invoice ∧ s'.wallet = invoiceState.wallet ∧
      s'.balance = invoiceState.balance ∧ s'.active_mint = invoiceState.active_mint ∧
      s'.data = "" ∧ s'.pay_invoice = "" ∧ s'.token = "" ∧ s'.qr_code = Option.none ∧
      s'.receive_amount = "" ∧ s'.send_amount = "" :=
  c9_home_preserves_invoice qr0 invoiceState 0 rfl

/-- Claim C7 (counterexample): the completion handler of the token-creation
operation (`Message::TokenCreated`) stores the token and shows the Token
screen but dispatches no task at all — in particular no balance check —
even though sending a token changes the balance. -/
theorem c7_counterexample :
    update qr0 tokenState (Message.TokenCreated "cashuTok") =
      some ({ tokenState with token := "cashuTok", view := View.Token },
            Effect.task_none) ∧
    Effect.task_none ≠ Effect.check_balance := by
  refine ⟨rfl, ?_⟩
  decide

/-- Claim C7 (amended): the completion handlers for wallet creation
(`WalletCreated`), minting (`Minted`) and for the receive and pay-invoice
operations (both complete with `CheckBalance`) each dispatch an explicit
balance check, and the balance result (`Balance`) updates the displayed
balance; the token-creation completion (`TokenCreated`) dispatches no
balance check — after creating a token the balance is refreshed only on
returning Home. -/
theorem c7_balance_refresh_after_ops (qrNew : String → Option QrData)
    (s : IcedCashu) (w₀ w : Wallet) (h : s.wallet = some w₀) (n : Nat) (t : String) :
    (∃ s₁, update qrNew s (Message.WalletCreated w) = some (s₁, Effect.check_balance)) ∧
    (∃ s₂, update qrNew s (Message.Minted n) = some (s₂, Effect.check_balance)) ∧
    (∃ s₃, update qrNew s (Message.CheckBalance n) = some (s₃, Effect.check_balance)) ∧
    (∃ s₄, update qrNew s (Message.TokenCreated t) = some (s₄, Effect.task_none)) ∧
    update qrNew s (Message.Balance n) = some ({ s with balance := n }, Effect.task_none) := by
  refine ⟨⟨{ s with wallet := some w }, rfl⟩, ⟨{ s with view := View.Main }, ?_⟩,
          ⟨s, ?_⟩, ⟨{ s with token := t, view := View.Token }, rfl⟩, rfl⟩ <;>
    simp [update, h]

/-- Witness for C7 at a concrete wallet-present state. -/
theorem c7_balance_refresh_after_ops_witness :
    (∃ s₁, update qr0 tokenState (Message.WalletCreated 0) =
      some (s₁, Effect.check_balance)) ∧
    (∃ s₂, update qr0 tokenState (Message.Minted 7) = some (s₂, Effect.check_balance)) ∧
    (∃ s₃, update qr0 tokenState (Message.CheckBalance 7) =
      some (s₃, Effect.check_balance)) ∧
    (∃ s₄, update qr0 tokenState (Message.TokenCreated "tok") =
      some (s₄, Effect.task_none)) ∧
    update qr0 tokenState (Message.Balance 7) =
      some ({ tokenState with balance := 7 }, Effect.task_none) :=
  c7_balance_refresh_after_ops qr0 tokenState 0 0 rfl 7 "tok"

/-- Claim C8 (counterexample): rendering the Invoice view with no QR code
available panics (modelled as `Option.none`) — the source unwraps
`self.qr_code` — so the renderer is not total on all states. -/
theorem c8_counterexample : render invoiceNoQrState = Option.none := rfl

/-- Claim C8 (amended): the renderer is a pure function of the state and
produces a screen description on every state except exactly those where a
wallet is present, the view is Invoice and no QR code is available; there it
unwraps a `None` and panics. -/
theorem c8_render_total_except_invoice_no_qr (s : IcedCashu) :
    (render s).isSome ↔
      ¬(s.wallet.isSome ∧ s.view = View.Invoice ∧ s.qr_code = Option.none) := by
  cases hw : s.wallet <;> cases hv : s.view <;> cases hq : s.qr_code <;>
    simp [render, hw, hv, hq]

/-- Shape of every terminating `mint` trace, generalized over the starting
query index: some number `n` of unpaid rounds — each a `paid = false` query
followed by a 5-second sleep — then a `paid = true` query, a final sleep,
and only then the `wallet.mint` call. -/
theorem mint_trace_shape (status : Nat → Bool) :
    ∀ (fuel k : Nat) (tr : List MintEvent), mint_trace status fuel k = some tr →
    ∃ n, (∀ i, i < n → status (k + i) = false) ∧ status (k + n) = true ∧
      tr = pollRounds n ++
        [MintEvent.query true, MintEvent.sleep 5, MintEvent.mint_call] := by
  intro fuel
  induction fuel with
  | zero => intro k tr h; simp [mint_trace] at h
  | succ fuel ih =>
    intro k tr h
    by_cases hp : status k = true
    · refine ⟨0, by omega, by simpa using hp, ?_⟩
      simp [mint_trace, hp] at h
      simp [pollRounds, ← h]
    · have hp' : status k = false := by simpa using hp
      simp [mint_trace, hp'] at h
      obtain ⟨rest, hrest, htr⟩ := h
      obtain ⟨n, hfalse, htrue, hshape⟩ := ih (k + 1) rest hrest
      refine ⟨n + 1, ?_, ?_, ?_⟩
      · intro i hi
        cases i with
        | zero => simpa using hp'
        | succ j =>
          have : k + (j + 1) = k + 1 + j := by omega
          rw [this]
          exact hfalse j (by omega)
      · have : k + (n + 1) = k + 1 + n := by omega
        rw [this]; exact htrue
      · simp [pollRounds, ← htr, hshape]

/-- Claim C4: in every terminating execution of the mint-await loop, the
final mint call comes only after a mint-quote-status query has reported
`paid = true` — the whole trace is some number of unpaid rounds, then the
paid query, a last sleep, and only then the mint call — and while unpaid
every status query is followed by exactly a 5-second sleep before the next
query, i.e. a fixed 5-second cadence. -/
theorem c4_mint_after_paid_with_fixed_cadence (status : Nat → Bool) (fuel : Nat)
    (tr : List MintEvent) (h : mint_trace status fuel 0 = some tr) :
    ∃ n, (∀ i, i < n → status i = false) ∧ status n = true ∧
      tr = pollRounds n ++
        [MintEvent.query true, MintEvent.sleep 5, MintEvent.mint_call] := by
  have h0 := mint_trace_shape status fuel 0 tr h
  simpa using h0

/-- A status environment reporting unpaid on the first query and paid on the
second. -/
def statusPaidAt1 : Nat → Bool := fun k => k == 1

/-- Witness for C4: the concrete trace for `statusPaidAt1` polls once
unpaid, then queries paid, sleeps, and mints. -/
theorem c4_mint_after_paid_with_fixed_cadence_witness :
    ∃ n, (∀ i, i < n → statusPaidAt1 i = false) ∧ statusPaidAt1 n = true ∧
      [MintEvent.query false, MintEvent.sleep 5, MintEvent.query true,
       MintEvent.sleep 5, MintEvent.mint_call] =
        pollRounds n ++
          [MintEvent.query true, MintEvent.sleep 5, MintEvent.mint_call] :=
  c4_mint_after_paid_with_fixed_cadence statusPaidAt1 3 _ rfl

/-! ### The no-wallet invariant and reachable panics -/

/-- A non-panicking `update` never discards an existing wallet handle: no
handler assigns `None` to `self.wallet`. -/
theorem update_wallet_isSome (qrNew : String → Option QrData) {s : IcedCashu}
    {m : Message} {s' : IcedCashu} {e : Effect}
    (hu : update qrNew s m = some (s', e)) (hw : s.wallet.isSome) :
    s'.wallet.isSome := by
  obtain ⟨w, hww⟩ : ∃ w, s.wallet = some w := Option.isSome_iff_exists.mp hw
  cases m <;>
    simp only [update, string_from_str, hww] at hu <;>
    (try split at hu) <;>
    simp only [Option.some.injEq, Prod.mk.injEq, reduceCtorEq] at hu <;>
    (obtain ⟨h1, h2⟩ := hu; subst h1; simp [hww])

/-- Invariant carried through the event loop: while no wallet handle exists,
the view is still Main and the only async operation that can be in flight is
wallet creation. -/
def ConfigInv (c : Config) : Prop :=
  c.state.wallet = Option.none →
    c.state.view = View.Main ∧ ∀ e ∈ c.pending, e = Effect.new_wallet

theorem step_preserves_inv (qrNew : String → Option QrData) {c c' : Config}
    (hs : Step qrNew c c') (hI : ConfigInv c) : ConfigInv c' := by
  cases hs with
  | ui m scr s' e hr he hu hc =>
    subst hc
    intro hw'
    replace hw' : s'.wallet = Option.none := hw'
    by_cases hsw : c.state.wallet.isSome
    · exact absurd (update_wallet_isSome qrNew hu hsw) (by simp [hw'])
    · have hwn : c.state.wallet = Option.none := Option.not_isSome_iff_eq_none.mp hsw
      obtain ⟨hview, hpend⟩ := hI hwn
      have hscr : scr = Screen.new_wallet_screen := by
        simp [render, hwn] at hr
        exact hr.symm
      subst hscr
      have hm : m = Message.NewWallet := he
      subst hm
      simp only [update, Option.some.injEq, Prod.mk.injEq] at hu
      obtain ⟨h1, h2⟩ := hu
      subst h1
      subst h2
      refine ⟨by simpa using hview, ?_⟩
      intro e he'
      simp only [pushEffect, List.mem_append, List.mem_singleton] at he'
      rcases he' with he' | he'
      · exact hpend e he'
      · exact he'
  | task e m s' e' hp hm hu hc =>
    subst hc
    intro hw'
    replace hw' : s'.wallet = Option.none := hw'
    by_cases hsw : c.state.wallet.isSome
    · exact absurd (update_wallet_isSome qrNew hu hsw) (by simp [hw'])
    · have hwn : c.state.wallet = Option.none := Option.not_isSome_iff_eq_none.mp hsw
      obtain ⟨hview, hpend⟩ := hI hwn
      have he : e = Effect.new_wallet := hpend e hp
      subst he
      obtain ⟨w, hmw⟩ := hm
      subst hmw
      simp only [update, Option.some.injEq, Prod.mk.injEq] at hu
      obtain ⟨h1, h2⟩ := hu
      exfalso
      rw [← h1] at hw'
      simp at hw'

/-- The invariant holds on every reachable configuration. -/
theorem reachable_inv (qrNew : String → Option QrData) {c : Config}
    (h : Reachable qrNew c) : ConfigInv c := by
  induction h with
  | init =>
    intro _
    exact ⟨rfl, by simp⟩
  | step _ hs ih => exact step_preserves_inv qrNew hs ih

/-- Claim C6: on every reachable configuration, a view other than Main is
current only when a wallet handle exists (equivalently, without a handle the
view is still Main); and on any state without a handle the renderer shows
the initialization (New Wallet) screen regardless of the view field. -/
theorem c6_no_wallet_forces_init_screen (qrNew : String → Option QrData) :
    (∀ c : Config, Reachable qrNew c → c.state.wallet = Option.none →
      c.state.view = View.Main) ∧
    (∀ s : IcedCashu, s.wallet = Option.none →
      render s = some Screen.new_wallet_screen) := by
  constructor
  · intro c hc hw
    exact (reachable_inv qrNew hc hw).1
  · intro s hw
    simp [render, hw]

/-- Witness for C6 at the initial configuration and the default state. -/
theorem c6_no_wallet_forces_init_screen_witness :
    (⟨IcedCashu.default, []⟩ : Config).state.view = View.Main ∧
    render IcedCashu.default = some Screen.new_wallet_screen :=
  ⟨(c6_no_wallet_forces_init_screen qr0).1 ⟨IcedCashu.default, []⟩ Reachable.init rfl,
   (c6_no_wallet_forces_init_screen qr0).2 IcedCashu.default rfl⟩

/-- The four configurations of a concrete run: start, after pressing New
Wallet, after the wallet-creation task completes, after pressing Receive. -/
def cfg0 : Config := ⟨IcedCashu.default, []⟩

def s1 : IcedCashu := { IcedCashu.default with active_mint := DEFAULT_MINT }

def cfg1 : Config := ⟨s1, [Effect.new_wallet]⟩

def s2 : IcedCashu := { s1 with wallet := some 0 }

def cfg2 : Config := ⟨s2, [Effect.check_balance]⟩

def s3 : IcedCashu := { s2 with view := View.Receive }

def cfg3 : Config := ⟨s3, [Effect.check_balance]⟩

/-- Claim C10: a configuration is reachable — press New Wallet, let wallet
creation complete, press Receive — whose amount fields are still empty, and
there dispatching CreateInvoice or CreateToken panics (the handlers
`.parse::<u64>().unwrap()` the empty amount string), modelled as `update`
returning `Option.none`. -/
theorem c10_create_invoice_token_panic_reachable :
    ∃ c : Config, Reachable qr0 c ∧
      update qr0 c.state Message.CreateInvoice = Option.none ∧
      update qr0 c.state Message.CreateToken = Option.none := by
  refine ⟨cfg3, ?_, rfl, rfl⟩
  have h1 : Step qr0 cfg0 cfg1 :=
    Step.ui cfg0 cfg1 Message.NewWallet Screen.new_wallet_screen s1
      Effect.new_wallet rfl rfl rfl rfl
  have h2 : Step qr0 cfg1 cfg2 :=
    Step.task cfg1 cfg2 Effect.new_wallet (Message.WalletCreated 0) s2
      Effect.check_balance (List.mem_singleton.mpr rfl) ⟨0, rfl⟩ rfl rfl
  have h3 : Step qr0 cfg2 cfg3 :=
    Step.ui cfg2 cfg3 Message.ReceiveEcash (Screen.main_screen 0) s3
      Effect.task_none rfl (Or.inl rfl) rfl rfl
  exact Reachable.step (Reachable.step (Reachable.step Reachable.init h1) h2) h3

end IcedCashuModel
